import Mathlib

/-!
Shallow embedding of the crisis-alert dashboard core (src/app.py):
the PMI acquisition fallback chain (`get_pmi_data_alternative`), the three
signal classifiers (`analyze_sofr_signal`, `analyze_pmi_signal`,
`analyze_yield_curve_signal`) and the composite evaluator
(`danger_signals` / `warning_signals` / `overall_signal`).

Conventions:
* numeric values are rationals (`ℚ`), standing for Python floats;
* a Python function that can raise is embedded with result type `Option _`
  (`none` is an uncaught exception), and a Python `None` result is the inner
  `Option` (`some none` means the function returns `None`);
* a pandas `Series` is its list of values together with the length of its
  date index; `pd.date_range('2023-01-01', datetime.now(), freq='M')` is
  represented by the number `n` of month-end dates it contains, its dates
  being the month indices `List.range n` (monthly cadence by construction).
-/

namespace CrisisAlert

/-- Python values as they appear in parsed JSON payloads: either something
`float()` accepts (carried as a rational) or something it raises on. -/
inductive JVal where
  | num (q : ℚ)
  | other
deriving DecidableEq

/-- Python `float(v)`: `none` models a raised `ValueError`/`TypeError`. -/
def pyFloat : JVal → Option ℚ
  | .num q => some q
  | .other => none

/-- Python `xs[-n:]` (note that `xs[-0:]` is the whole list). -/
def pySliceLastN (n : ℕ) (xs : List α) : List α :=
  if n = 0 then xs else xs.drop (xs.length - n)

/-- Python `xs * k` (list repetition). -/
def pyTile (xs : List α) : ℕ → List α
  | 0 => []
  | k + 1 => xs ++ pyTile xs k

/-- Python `xs[-1] = v`; every call site guarantees `xs` is nonempty,
so the out-of-range identity case of `List.set` is never exercised. -/
def pySetLast (xs : List α) (v : α) : List α :=
  xs.set (xs.length - 1) v

/-- pandas `xs.tail k`: the last `min k xs.length` entries. -/
def pdTail (k : ℕ) (xs : List α) : List α :=
  xs.drop (xs.length - k)

/-- pandas `.mean()`; every call site applies it to a nonempty series. -/
def listMean (xs : List ℚ) : ℚ :=
  xs.sum / xs.length

/-- pandas `xs.iloc[-k]` for `1 ≤ k`: `none` models a raised `IndexError`. -/
def ilocNeg (xs : List ℚ) (k : ℕ) : Option ℚ :=
  if 1 ≤ k ∧ k ≤ xs.length then xs.get? (xs.length - k) else none

/-- The value `xs.iloc[-k]` reads when it is in bounds. -/
def ilocD (xs : List ℚ) (k : ℕ) : ℚ :=
  xs.getD (xs.length - k) 0

/-- A pandas `Series` with an explicit date index: `nDates` month-end dates
(`pd.date_range('2023-01-01', datetime.now(), freq='M')`) carrying
`values`. -/
structure Series where
  values : List JVal
  nDates : ℕ
deriving DecidableEq

/-- Embedding of `pd.Series(values, index=dates)`: raises (`none`) when lengths differ. -/
def mkSeries (vs : List JVal) (n : ℕ) : Option Series :=
  if vs.length = n then some ⟨vs, n⟩ else none

/-- The simulated fill used by strategy 1 when the API returns fewer points
than requested dates (`base_values` in src/app.py line 124). -/
def base_values : List ℚ := [50.2, 49.8, 48.5, 47.9, 49.1, 49.8]

/-- Strategy 1 of `get_pmi_data_alternative` (primary Trading-Economics API),
src/app.py lines 101-130, given the parsed JSON payload `data` (the list of
each point's `Value` field, with the `.get` numeric defaults already
applied) and the number `n` of requested month-end dates.  A nonempty
payload whose latest entry survives `float()` is turned into a series;
there is no range check on the value.  Any exception inside (float failure,
`pd.Series` length mismatch) is caught by the enclosing `except`, i.e.
yields `none` and the chain falls through to strategy 2. -/
def get_pmi_strategy1 (data : List JVal) (n : ℕ) : Option Series :=
  if data.length > 0 then
    match pyFloat (data.getLastD .other) with
    | none => none
    | some _current_pmi =>
      let pmi_values := pySliceLastN n data
      let pmi_values' := if pmi_values.length < n then
          (pyTile (base_values.map JVal.num) (n / base_values.length + 1)).take n
        else pmi_values
      mkSeries pmi_values' n
  else none

/-- The hard-coded trend template of the scrape strategy, whose final entry
is the freshly scraped current reading (`pmi_trend`, src/app.py 195-198). -/
def pmi_trend (current_value : ℚ) : List ℚ :=
  [52.4, 51.9, 50.8, 49.2, 48.7, 47.8, 48.9, 49.5, 48.3, 49.1, 48.8,
   current_value]

/-- The value list the scrape strategy builds (src/app.py lines 200-208):
the trend template tiled or truncated to `n` dates, then the final entry
overwritten by the scraped current reading. -/
def get_pmi_strategy2_values (current_value : ℚ) (n : ℕ) : List ℚ :=
  let t := pmi_trend current_value
  let pmi_values := if n > t.length then (pyTile t (n / t.length + 1)).take n
    else pySliceLastN n t
  pySetLast pmi_values current_value

/-- Strategy 2 of `get_pmi_data_alternative` (web scrape), src/app.py lines
132-213.  `found` is the outcome of the current-value extraction from the
page (`none`: nothing extracted, or the request/parse raised).  Python
truthiness in `if current_value:` rejects an extracted `0`. -/
def get_pmi_strategy2 (found : Option ℚ) (n : ℕ) : Option Series :=
  match found with
  | some current_value =>
    if current_value ≠ 0 then
      mkSeries ((get_pmi_strategy2_values current_value n).map JVal.num) n
    else none
  | none => none

/-- The hand-curated backup series (`realistic_pmi_data`, src/app.py
lines 220-223). -/
def realistic_pmi_data : List ℚ :=
  [52.4, 51.9, 51.8, 50.9, 49.7, 48.5, 47.8, 48.9, 49.2, 48.7, 49.1, 48.2,
   49.8]

/-- Strategy 3 of `get_pmi_data_alternative` (static backup), src/app.py
lines 215-231: the backup data tiled or truncated to the `n` requested
month-end dates.  This block is not wrapped in `try`, so a `pd.Series`
length mismatch (which the Python `[-0:]` slice quirk makes possible only
for `n = 0`) would propagate out of the resolver. -/
def get_pmi_strategy3 (n : ℕ) : Option Series :=
  let pmi_values := if n > realistic_pmi_data.length then
      (pyTile realistic_pmi_data (n / realistic_pmi_data.length + 1)).take n
    else pySliceLastN n realistic_pmi_data
  mkSeries (pmi_values.map JVal.num) n

/-- The full fallback chain `get_pmi_data_alternative` (src/app.py lines
97-231), parameterized by the outcomes of its two network interactions:
`api` is the parsed strategy-1 payload (`none`: request failed, non-200
status, empty body or JSON error) and `found` the scraped current value.
`n` is the number of requested month-end dates. -/
def get_pmi_data_alternative (api : Option (List JVal)) (found : Option ℚ)
    (n : ℕ) : Option Series :=
  match api.bind (fun data => get_pmi_strategy1 data n) with
  | some s => some s
  | none =>
    match get_pmi_strategy2 found n with
    | some s => some s
    | none => get_pmi_strategy3 n

/-- The label set of `analyze_sofr_signal`. -/
inductive SofrSignal where
  | severeCrisis
  | earlyWarning
  | caution
  | normal
deriving DecidableEq

/-- The record returned by `analyze_sofr_signal` (its second tuple
component, the echoed input series, is omitted). -/
structure SofrResult where
  current_rate : ℚ
  daily_change : ℚ
  deviation_from_avg : ℚ
  signal : SofrSignal
deriving DecidableEq

/-- Embedding of `analyze_sofr_signal` (src/app.py lines 248-274).  The outer `Option` is
exception-freedom (`none` would be an uncaught raise), the inner one is the
Python `None` returned for a missing or short input series. -/
def analyze_sofr_signal : Option (List ℚ) → Option (Option SofrResult)
  | none => some none
  | some xs =>
    if xs.length < 2 then some none
    else
      match ilocNeg xs 1, ilocNeg xs 2 with
      | some current_rate, some previous_rate =>
        let daily_change := current_rate - previous_rate
        let recent_avg := listMean (pdTail 30 xs)
        let deviation_from_avg := current_rate - recent_avg
        let signal :=
          if daily_change ≥ 1.0 then SofrSignal.severeCrisis
          else if daily_change ≥ 0.2 then SofrSignal.earlyWarning
          else if deviation_from_avg ≥ 0.5 then SofrSignal.caution
          else SofrSignal.normal
        some (some ⟨current_rate, daily_change, deviation_from_avg, signal⟩)
      | _, _ => none

/-- The label set of `analyze_pmi_signal`. -/
inductive PmiSignal where
  | crisisRealized
  | warning
  | caution
  | normal
deriving DecidableEq

/-- The record returned by `analyze_pmi_signal`. -/
structure PmiResult where
  current_pmi : ℚ
  recent_3_months_avg : ℚ
  signal : PmiSignal
deriving DecidableEq

/-- Embedding of `analyze_pmi_signal` (src/app.py lines 276-297). -/
def analyze_pmi_signal : Option (List ℚ) → Option (Option PmiResult)
  | none => some none
  | some xs =>
    if xs.length < 3 then some none
    else
      match ilocNeg xs 1 with
      | some current_pmi =>
        let recent_3_months := pdTail 3 xs
        let signal :=
          if current_pmi < 45 then
            (if recent_3_months.all (fun v => decide (v < 45)) then
              PmiSignal.crisisRealized
            else PmiSignal.warning)
          else if current_pmi < 50 then PmiSignal.caution
          else PmiSignal.normal
        some (some ⟨current_pmi, listMean recent_3_months, signal⟩)
      | none => none

/-- The label set of `analyze_yield_curve_signal`. -/
inductive YieldSignal where
  | inverted
  | imminent
  | normal
deriving DecidableEq

/-- The record returned by `analyze_yield_curve_signal`. -/
structure YieldResult where
  current_spread : ℚ
  change_30_days : ℚ
  is_inverted : Bool
  rapid_normalization : Bool
  signal : YieldSignal
deriving DecidableEq

/-- Embedding of `analyze_yield_curve_signal` (src/app.py lines 299-325). -/
def analyze_yield_curve_signal : Option (List ℚ) → Option (Option YieldResult)
  | none => some none
  | some xs =>
    if xs.length < 30 then some none
    else
      match ilocNeg xs 1, ilocNeg xs 30 with
      | some current_spread, some prior30 =>
        let change_30_days := current_spread - prior30
        if current_spread < 0 then
          some (some ⟨current_spread, change_30_days, true, false,
            YieldSignal.inverted⟩)
        else if change_30_days > 0.5 ∧ prior30 < 0 then
          some (some ⟨current_spread, change_30_days, false, true,
            YieldSignal.imminent⟩)
        else
          some (some ⟨current_spread, change_30_days, false, false,
            YieldSignal.normal⟩)
      | _, _ => none

/-- The classification label `analyze_sofr_signal` attaches, when a result
record is produced. -/
def sofrSignalOf (d : Option (List ℚ)) : Option SofrSignal :=
  match analyze_sofr_signal d with
  | some (some r) => some r.signal
  | _ => none

/-- The deviation-from-trailing-mean `analyze_sofr_signal` reports, when a
result record is produced. -/
def sofrDeviationOf (d : Option (List ℚ)) : Option ℚ :=
  match analyze_sofr_signal d with
  | some (some r) => some r.deviation_from_avg
  | _ => none

/-- The classification label `analyze_pmi_signal` attaches, when a result
record is produced. -/
def pmiSignalOf (d : Option (List ℚ)) : Option PmiSignal :=
  match analyze_pmi_signal d with
  | some (some r) => some r.signal
  | _ => none

/-- The classification label `analyze_yield_curve_signal` attaches, when a
result record is produced. -/
def yieldSignalOf (d : Option (List ℚ)) : Option YieldSignal :=
  match analyze_yield_curve_signal d with
  | some (some r) => some r.signal
  | _ => none

/-- The `rapid_normalization` flag `analyze_yield_curve_signal` reports,
when a result record is produced. -/
def yieldRapidOf (d : Option (List ℚ)) : Option Bool :=
  match analyze_yield_curve_signal d with
  | some (some r) => some r.rapid_normalization
  | _ => none

/-- Contribution of the SOFR classifier result to `danger_signals`
(src/app.py lines 457-458). -/
def sofr_danger_contrib : Option SofrResult → ℕ
  | some a => if a.signal = SofrSignal.severeCrisis then 1 else 0
  | none => 0

/-- Contribution of the SOFR classifier result to `warning_signals`; the
`elif` excludes the danger branch (src/app.py lines 459-460). -/
def sofr_warning_contrib : Option SofrResult → ℕ
  | some a =>
    if a.signal = SofrSignal.severeCrisis then 0
    else if a.signal = SofrSignal.earlyWarning ∨ a.signal = SofrSignal.caution
      then 1 else 0
  | none => 0

/-- Contribution of the PMI classifier result to `danger_signals`
(src/app.py lines 462-463). -/
def pmi_danger_contrib : Option PmiResult → ℕ
  | some a => if a.signal = PmiSignal.crisisRealized then 1 else 0
  | none => 0

/-- Contribution of the PMI classifier result to `warning_signals`
(src/app.py lines 464-465). -/
def pmi_warning_contrib : Option PmiResult → ℕ
  | some a =>
    if a.signal = PmiSignal.crisisRealized then 0
    else if a.signal = PmiSignal.warning ∨ a.signal = PmiSignal.caution
      then 1 else 0
  | none => 0

/-- Contribution of the yield-curve classifier result to `danger_signals`:
the substring test `"임박" in signal` holds exactly for the imminent label
(src/app.py lines 467-468). -/
def yield_danger_contrib : Option YieldResult → ℕ
  | some a => if a.signal = YieldSignal.imminent then 1 else 0
  | none => 0

/-- Contribution of the yield-curve classifier result to `warning_signals`:
the substring test `"역전" in signal` holds exactly for the inverted label,
and the `elif` excludes the danger branch (src/app.py lines 469-470). -/
def yield_warning_contrib : Option YieldResult → ℕ
  | some a =>
    if a.signal = YieldSignal.imminent then 0
    else if a.signal = YieldSignal.inverted then 1 else 0
  | none => 0

/-- The `danger_signals` counter of src/app.py lines 454-468: sum of the
three guarded increments. -/
def danger_signals (s : Option SofrResult) (p : Option PmiResult)
    (y : Option YieldResult) : ℕ :=
  sofr_danger_contrib s + pmi_danger_contrib p + yield_danger_contrib y

/-- The `warning_signals` counter of src/app.py lines 455-470. -/
def warning_signals (s : Option SofrResult) (p : Option PmiResult)
    (y : Option YieldResult) : ℕ :=
  sofr_warning_contrib s + pmi_warning_contrib p + yield_warning_contrib y

/-- The three overall tiers of the composite verdict. -/
inductive OverallSignal where
  | crisis
  | warning
  | normal
deriving DecidableEq

/-- The composite verdict `overall_signal` (src/app.py lines 472-481). -/
def overall_signal (s : Option SofrResult) (p : Option PmiResult)
    (y : Option YieldResult) : OverallSignal :=
  if danger_signals s p y ≥ 2 then OverallSignal.crisis
  else if danger_signals s p y ≥ 1 ∨ warning_signals s p y ≥ 2 then
    OverallSignal.warning
  else OverallSignal.normal

/-- A sample SOFR result carrying the "severe crisis" label, for exercising
the composite evaluator. -/
def exSofrSevere : SofrResult := ⟨0, 2, 0, SofrSignal.severeCrisis⟩

/-- A sample PMI result carrying the "crisis realized" label. -/
def exPmiCrisis : PmiResult := ⟨40, 40, PmiSignal.crisisRealized⟩

/-- A sample PMI result carrying the "warning" label. -/
def exPmiWarning : PmiResult := ⟨44, 46, PmiSignal.warning⟩

/-- A sample PMI result carrying the "caution" label. -/
def exPmiCaution : PmiResult := ⟨47, 47, PmiSignal.caution⟩

/-- A sample yield-curve result carrying the "curve inverted" label. -/
def exYieldInverted : YieldResult := ⟨0, 0, true, false, YieldSignal.inverted⟩

/-- A 30-observation spread series realizing the spec's rapid-renormalization
scenario: the value 30 observations back is `-0.3`, the latest is `0.4`. -/
def exSpreadSeries : List ℚ := [-0.3] ++ List.replicate 28 0.1 ++ [0.4]

/-! ### Helper lemmas about the Python/pandas primitives -/

theorem length_pyTile (xs : List α) (k : ℕ) :
    (pyTile xs k).length = k * xs.length := by
  induction k with
  | zero => simp [pyTile]
  | succ k ih => simp [pyTile, ih]; ring

theorem length_pySliceLastN (n : ℕ) (xs : List α) (h : 1 ≤ n) :
    (pySliceLastN n xs).length = min n xs.length := by
  unfold pySliceLastN
  rw [if_neg (by omega), List.length_drop]
  omega

theorem length_take_pyTile (xs : List α) (n : ℕ) (h : 0 < xs.length) :
    ((pyTile xs (n / xs.length + 1)).take n).length = n := by
  have h1 := Nat.div_add_mod n xs.length
  have h2 : n % xs.length < xs.length := Nat.mod_lt _ h
  have h3 : n < (n / xs.length + 1) * xs.length := by
    calc n = xs.length * (n / xs.length) + n % xs.length := h1.symm
      _ < xs.length * (n / xs.length) + xs.length := by omega
      _ = (n / xs.length + 1) * xs.length := by ring
  rw [List.length_take, length_pyTile]
  exact min_eq_left h3.le

theorem length_pySetLast (xs : List α) (v : α) :
    (pySetLast xs v).length = xs.length := by
  unfold pySetLast
  exact List.length_set xs _ v

theorem getLast?_pySetLast (xs : List α) (v : α) (h : xs ≠ []) :
    (pySetLast xs v).getLast? = some v := by
  have hl : 0 < xs.length := List.length_pos.mpr h
  unfold pySetLast
  rw [List.getLast?_eq_getElem?, List.length_set, List.getElem?_set_self',
      List.getElem?_eq_getElem (by omega)]
  rfl

theorem ilocNeg_eq (xs : List ℚ) (k : ℕ) (h1 : 1 ≤ k) (h2 : k ≤ xs.length) :
    ilocNeg xs k = some (ilocD xs k) := by
  have hlt : xs.length - k < xs.length := by omega
  unfold ilocNeg ilocD
  rw [if_pos ⟨h1, h2⟩, List.get?_eq_getElem?, List.getElem?_eq_getElem hlt,
      List.getD_eq_getElem?_getD, List.getElem?_eq_getElem hlt]
  rfl

theorem pdTail_eq_self (k : ℕ) (xs : List α) (h : xs.length ≤ k) :
    pdTail k xs = xs := by
  unfold pdTail
  have : xs.length - k = 0 := by omega
  rw [this, List.drop_zero]

/-! ### Normal forms of the three classifiers on sufficiently long input -/

theorem analyze_sofr_signal_eq (xs : List ℚ) (h : 2 ≤ xs.length) :
    analyze_sofr_signal (some xs) = some (some
      ⟨ilocD xs 1, ilocD xs 1 - ilocD xs 2,
        ilocD xs 1 - listMean (pdTail 30 xs),
        if ilocD xs 1 - ilocD xs 2 ≥ 1.0 then SofrSignal.severeCrisis
        else if ilocD xs 1 - ilocD xs 2 ≥ 0.2 then SofrSignal.earlyWarning
        else if ilocD xs 1 - listMean (pdTail 30 xs) ≥ 0.5 then
          SofrSignal.caution
        else SofrSignal.normal⟩) := by
  simp only [analyze_sofr_signal, if_neg (show ¬xs.length < 2 by omega),
    ilocNeg_eq xs 1 (by omega) (by omega), ilocNeg_eq xs 2 (by omega) h]

theorem analyze_pmi_signal_eq (xs : List ℚ) (h : 3 ≤ xs.length) :
    analyze_pmi_signal (some xs) = some (some
      ⟨ilocD xs 1, listMean (pdTail 3 xs),
        if ilocD xs 1 < 45 then
          (if (pdTail 3 xs).all (fun v => decide (v < 45)) then
            PmiSignal.crisisRealized
          else PmiSignal.warning)
        else if ilocD xs 1 < 50 then PmiSignal.caution
        else PmiSignal.normal⟩) := by
  simp only [analyze_pmi_signal, if_neg (show ¬xs.length < 3 by omega),
    ilocNeg_eq xs 1 (by omega) (by omega)]

theorem analyze_yield_curve_signal_eq (xs : List ℚ) (h : 30 ≤ xs.length) :
    analyze_yield_curve_signal (some xs) = some (some
      (if ilocD xs 1 < 0 then
        ⟨ilocD xs 1, ilocD xs 1 - ilocD xs 30, true, false,
          YieldSignal.inverted⟩
      else if ilocD xs 1 - ilocD xs 30 > 0.5 ∧ ilocD xs 30 < 0 then
        ⟨ilocD xs 1, ilocD xs 1 - ilocD xs 30, false, true,
          YieldSignal.imminent⟩
      else
        ⟨ilocD xs 1, ilocD xs 1 - ilocD xs 30, false, false,
          YieldSignal.normal⟩)) := by
  simp only [analyze_yield_curve_signal, if_neg (show ¬xs.length < 30 by omega),
    ilocNeg_eq xs 1 (by omega) (by omega), ilocNeg_eq xs 30 (by omega) h]
  split_ifs <;> rfl

theorem analyze_sofr_signal_short (xs : List ℚ) (h : xs.length < 2) :
    analyze_sofr_signal (some xs) = some none := by
  simp [analyze_sofr_signal, h]

theorem analyze_pmi_signal_short (xs : List ℚ) (h : xs.length < 3) :
    analyze_pmi_signal (some xs) = some none := by
  simp [analyze_pmi_signal, h]

theorem analyze_yield_curve_signal_short (xs : List ℚ) (h : xs.length < 30) :
    analyze_yield_curve_signal (some xs) = some none := by
  simp [analyze_yield_curve_signal, h]

/-- Shared shape of the tile-or-truncate adjustment used by strategies 2
and 3: the result always has exactly `n` entries (for `1 ≤ n`). -/
theorem length_tile_or_slice (xs : List ℚ) (n : ℕ) (hn : 1 ≤ n)
    (hx : 0 < xs.length) :
    (if n > xs.length then (pyTile xs (n / xs.length + 1)).take n
      else pySliceLastN n xs).length = n := by
  split_ifs with h1
  · exact length_take_pyTile xs n hx
  · rw [length_pySliceLastN n xs hn]
    omega

theorem length_get_pmi_strategy2_values (cv : ℚ) (n : ℕ) (hn : 1 ≤ n) :
    (get_pmi_strategy2_values cv n).length = n := by
  simp only [get_pmi_strategy2_values, length_pySetLast]
  exact length_tile_or_slice (pmi_trend cv) n hn (by simp [pmi_trend])

/-! ### Claim theorems -/

/-- Claim C4: for every rate series of at least 2 observations, the SOFR
classifier evaluates its rules in strict priority order with first match
winning: `dailyChange ≥ 1.0` yields "severe crisis" regardless of the
deviation value; else `dailyChange ≥ 0.2` yields "early warning"; else
deviation from the trailing mean `≥ 0.5` yields "caution"; else "normal". -/
theorem claim_C4_rate_priority (xs : List ℚ) (h : 2 ≤ xs.length) :
    (sofrSignalOf (some xs) = some SofrSignal.severeCrisis ↔
      ilocD xs 1 - ilocD xs 2 ≥ 1.0) ∧
    (sofrSignalOf (some xs) = some SofrSignal.earlyWarning ↔
      ¬ilocD xs 1 - ilocD xs 2 ≥ 1.0 ∧ ilocD xs 1 - ilocD xs 2 ≥ 0.2) ∧
    (sofrSignalOf (some xs) = some SofrSignal.caution ↔
      ¬ilocD xs 1 - ilocD xs 2 ≥ 1.0 ∧ ¬ilocD xs 1 - ilocD xs 2 ≥ 0.2 ∧
        ilocD xs 1 - listMean (pdTail 30 xs) ≥ 0.5) ∧
    (sofrSignalOf (some xs) = some SofrSignal.normal ↔
      ¬ilocD xs 1 - ilocD xs 2 ≥ 1.0 ∧ ¬ilocD xs 1 - ilocD xs 2 ≥ 0.2 ∧
        ¬ilocD xs 1 - listMean (pdTail 30 xs) ≥ 0.5) := by
  simp only [sofrSignalOf, analyze_sofr_signal_eq xs h]
  split_ifs with h1 h2 h3 <;> simp_all

/-- Witness for C4 at the concrete series `[1, 2.5]` (daily change `1.5`). -/
theorem claim_C4_rate_priority_witness :
    2 ≤ ([1, 2.5] : List ℚ).length ∧
    (sofrSignalOf (some [1, 2.5]) = some SofrSignal.severeCrisis ↔
      ilocD [1, 2.5] 1 - ilocD [1, 2.5] 2 ≥ 1.0) :=
  ⟨by decide, (claim_C4_rate_priority [1, 2.5] (by decide)).1⟩

/-- Claim C5: for every activity series of at least 3 observations the PMI
classifier returns "crisis realized" when the latest value is below 45 and
all three trailing observations are below 45; "warning" when the latest is
below 45 but not all three are; "caution" when the latest is in `[45, 50)`;
"normal" otherwise; and the series with latest 3 values `[44.0, 43.5, 42.8]`
classifies as "crisis realized". -/
theorem claim_C5_activity_classification :
    (∀ xs : List ℚ, 3 ≤ xs.length →
      (pmiSignalOf (some xs) = some PmiSignal.crisisRealized ↔
        ilocD xs 1 < 45 ∧ ∀ v ∈ pdTail 3 xs, v < 45) ∧
      (pmiSignalOf (some xs) = some PmiSignal.warning ↔
        ilocD xs 1 < 45 ∧ ¬∀ v ∈ pdTail 3 xs, v < 45) ∧
      (pmiSignalOf (some xs) = some PmiSignal.caution ↔
        45 ≤ ilocD xs 1 ∧ ilocD xs 1 < 50) ∧
      (pmiSignalOf (some xs) = some PmiSignal.normal ↔ 50 ≤ ilocD xs 1)) ∧
    pmiSignalOf (some [44, 43.5, 42.8]) = some PmiSignal.crisisRealized := by
  constructor
  · intro xs h
    simp only [pmiSignalOf, analyze_pmi_signal_eq xs h, List.all_eq_true,
      decide_eq_true_eq]
    split_ifs with h1 h2 h3 <;> simp_all [not_lt] <;> linarith
  · have h3 : 3 ≤ ([44, 43.5, 42.8] : List ℚ).length := by decide
    simp only [pmiSignalOf, analyze_pmi_signal_eq [44, 43.5, 42.8] h3]
    rw [if_pos, if_pos]
    · simp [pdTail, List.all_eq_true]
      norm_num
    · show ilocD [44, 43.5, 42.8] 1 < 45
      simp [ilocD]
      norm_num

/-- Witness for the universally quantified part of C5 at the concrete series
`[44, 43.5, 42.8]`. -/
theorem claim_C5_activity_classification_witness :
    3 ≤ ([44, 43.5, 42.8] : List ℚ).length ∧
    (pmiSignalOf (some [44, 43.5, 42.8]) = some PmiSignal.crisisRealized ↔
      ilocD [44, 43.5, 42.8] 1 < 45 ∧
        ∀ v ∈ pdTail 3 ([44, 43.5, 42.8] : List ℚ), v < 45) := by
  refine ⟨by decide, ?_⟩
  exact (claim_C5_activity_classification.1 [44, 43.5, 42.8] (by decide)).1

/-- Claim C2: for every spread series of at least 30 observations, the
classifier returns the "curve inverted" label whenever the latest value is
negative (inversion wins even if the renormalization condition holds); it
returns "recession imminent" with the `rapid_normalization` flag set exactly
when the latest value is non-negative, the value 30 observations prior is
negative, and latest minus that prior value exceeds 0.5; otherwise it
returns "normal". -/
theorem claim_C2_spread_classifier (xs : List ℚ) (h : 30 ≤ xs.length) :
    (ilocD xs 1 < 0 → yieldSignalOf (some xs) = some YieldSignal.inverted) ∧
    (yieldSignalOf (some xs) = some YieldSignal.imminent ↔
      0 ≤ ilocD xs 1 ∧ ilocD xs 30 < 0 ∧ ilocD xs 1 - ilocD xs 30 > 0.5) ∧
    (yieldRapidOf (some xs) = some true ↔
      0 ≤ ilocD xs 1 ∧ ilocD xs 30 < 0 ∧ ilocD xs 1 - ilocD xs 30 > 0.5) ∧
    (0 ≤ ilocD xs 1 ∧ ¬(ilocD xs 30 < 0 ∧ ilocD xs 1 - ilocD xs 30 > 0.5) →
      yieldSignalOf (some xs) = some YieldSignal.normal) := by
  simp only [yieldSignalOf, yieldRapidOf, analyze_yield_curve_signal_eq xs h]
  split_ifs with h1 h2
  · refine ⟨fun _ => rfl, ?_, ?_, fun hc => absurd h1 (not_lt.mpr hc.1)⟩
    · constructor
      · intro he
        simp at he
      · rintro ⟨hc, -, -⟩
        exact absurd h1 (not_lt.mpr hc)
    · constructor
      · intro he
        simp at he
      · rintro ⟨hc, -, -⟩
        exact absurd h1 (not_lt.mpr hc)
  · refine ⟨fun hneg => absurd hneg h1,
      ⟨fun _ => ⟨not_lt.mp h1, h2.2, h2.1⟩, fun _ => rfl⟩,
      ⟨fun _ => ⟨not_lt.mp h1, h2.2, h2.1⟩, fun _ => rfl⟩,
      fun hnorm => absurd ⟨h2.2, h2.1⟩ hnorm.2⟩
  · refine ⟨fun hneg => absurd hneg h1, ?_, ?_, fun _ => rfl⟩
    · constructor
      · intro he
        simp at he
      · rintro ⟨-, hp, hd⟩
        exact absurd ⟨hd, hp⟩ h2
    · constructor
      · intro he
        simp at he
      · rintro ⟨-, hp, hd⟩
        exact absurd ⟨hd, hp⟩ h2

/-- Witness for C2 at the 30-observation series `exSpreadSeries`. -/
theorem claim_C2_spread_classifier_witness :
    30 ≤ exSpreadSeries.length ∧
    (yieldSignalOf (some exSpreadSeries) = some YieldSignal.imminent ↔
      0 ≤ ilocD exSpreadSeries 1 ∧ ilocD exSpreadSeries 30 < 0 ∧
        ilocD exSpreadSeries 1 - ilocD exSpreadSeries 30 > 0.5) :=
  ⟨by decide, (claim_C2_spread_classifier exSpreadSeries (by decide)).2.1⟩

/-- Claim C7: each classifier returns absence (`None`) rather than raising
on every well-formed series shorter than its minimum (2, 3, 30 observations
respectively), and never raises on longer series either: the embedded
functions always return `some _`, and return `some none` exactly on short
input. -/
theorem claim_C7_never_raises (xs : List ℚ) :
    (analyze_sofr_signal (some xs)).isSome = true ∧
    (analyze_pmi_signal (some xs)).isSome = true ∧
    (analyze_yield_curve_signal (some xs)).isSome = true ∧
    (xs.length < 2 ↔ analyze_sofr_signal (some xs) = some none) ∧
    (xs.length < 3 ↔ analyze_pmi_signal (some xs) = some none) ∧
    (xs.length < 30 ↔ analyze_yield_curve_signal (some xs) = some none) := by
  refine ⟨?_, ?_, ?_, ⟨fun hl => analyze_sofr_signal_short xs hl, ?_⟩,
    ⟨fun hl => analyze_pmi_signal_short xs hl, ?_⟩,
    ⟨fun hl => analyze_yield_curve_signal_short xs hl, ?_⟩⟩
  · rcases Nat.lt_or_ge xs.length 2 with hl | hl
    · simp [analyze_sofr_signal_short xs hl]
    · simp [analyze_sofr_signal_eq xs hl]
  · rcases Nat.lt_or_ge xs.length 3 with hl | hl
    · simp [analyze_pmi_signal_short xs hl]
    · simp [analyze_pmi_signal_eq xs hl]
  · rcases Nat.lt_or_ge xs.length 30 with hl | hl
    · simp [analyze_yield_curve_signal_short xs hl]
    · simp [analyze_yield_curve_signal_eq xs hl]
  · intro he
    by_contra hge
    rw [analyze_sofr_signal_eq xs (by omega)] at he
    simp at he
  · intro he
    by_contra hge
    rw [analyze_pmi_signal_eq xs (by omega)] at he
    simp at he
  · intro he
    by_contra hge
    rw [analyze_yield_curve_signal_eq xs (by omega)] at he
    simp at he

/-- Claim C10: for every rate series with at least 2 but fewer than 30
observations, the SOFR classifier still returns a result (not absence), and
the deviation it reports is computed against the mean of all available
observations. -/
theorem claim_C10_short_window_mean (xs : List ℚ) (h2 : 2 ≤ xs.length)
    (h30 : xs.length < 30) :
    analyze_sofr_signal (some xs) ≠ some none ∧
    (analyze_sofr_signal (some xs)).isSome = true ∧
    sofrDeviationOf (some xs) = some (ilocD xs 1 - listMean xs) := by
  have hpd : pdTail 30 xs = xs := pdTail_eq_self 30 xs (by omega)
  refine ⟨?_, ?_, ?_⟩ <;>
    simp [sofrDeviationOf, analyze_sofr_signal_eq xs h2, hpd]

/-- Witness for C10 at the concrete 2-observation series `[4, 5]`. -/
theorem claim_C10_short_window_mean_witness :
    2 ≤ ([4, 5] : List ℚ).length ∧ ([4, 5] : List ℚ).length < 30 ∧
    sofrDeviationOf (some [4, 5]) = some (ilocD [4, 5] 1 - listMean [4, 5]) :=
  ⟨by decide, by decide,
    (claim_C10_short_window_mean [4, 5] (by decide) (by decide)).2.2⟩

/-- Claim C3: the Composite Evaluator's final tier is Crisis iff the danger
count is at least 2; Warning iff it is below 2 and danger ≥ 1 or warning ≥ 2;
Normal otherwise; with the four particular count patterns (2,0) → Crisis,
(0,2) → Warning, (1,0) → Warning, (0,1) → Normal realized by concrete
classifier-result triples. -/
theorem claim_C3_composite_tiers :
    (∀ (s : Option SofrResult) (p : Option PmiResult) (y : Option YieldResult),
      (overall_signal s p y = OverallSignal.crisis ↔
        2 ≤ danger_signals s p y) ∧
      (overall_signal s p y = OverallSignal.warning ↔
        danger_signals s p y < 2 ∧
          (1 ≤ danger_signals s p y ∨ 2 ≤ warning_signals s p y)) ∧
      (overall_signal s p y = OverallSignal.normal ↔
        danger_signals s p y = 0 ∧ warning_signals s p y ≤ 1)) ∧
    danger_signals (some exSofrSevere) (some exPmiCrisis) none = 2 ∧
    warning_signals (some exSofrSevere) (some exPmiCrisis) none = 0 ∧
    overall_signal (some exSofrSevere) (some exPmiCrisis) none =
      OverallSignal.crisis ∧
    danger_signals none (some exPmiWarning) (some exYieldInverted) = 0 ∧
    warning_signals none (some exPmiWarning) (some exYieldInverted) = 2 ∧
    overall_signal none (some exPmiWarning) (some exYieldInverted) =
      OverallSignal.warning ∧
    danger_signals (some exSofrSevere) none none = 1 ∧
    warning_signals (some exSofrSevere) none none = 0 ∧
    overall_signal (some exSofrSevere) none none = OverallSignal.warning ∧
    danger_signals none (some exPmiCaution) none = 0 ∧
    warning_signals none (some exPmiCaution) none = 1 ∧
    overall_signal none (some exPmiCaution) none = OverallSignal.normal := by
  refine ⟨?_, rfl, rfl, rfl, rfl, rfl, rfl, rfl, rfl, rfl, rfl, rfl, rfl⟩
  intro s p y
  unfold overall_signal
  refine ⟨?_, ?_, ?_⟩ <;> split_ifs with h1 h2 <;> simp_all <;> omega

/-- Claim C6: an absent classifier result contributes to neither count: with
any one input absent, each counter equals the sum of the two remaining
contributions, and with all three absent both counters are zero and the
composite verdict is Normal. -/
theorem claim_C6_absent_contributes_nothing :
    (∀ (p : Option PmiResult) (y : Option YieldResult),
      danger_signals none p y = pmi_danger_contrib p + yield_danger_contrib y ∧
      warning_signals none p y =
        pmi_warning_contrib p + yield_warning_contrib y) ∧
    (∀ (s : Option SofrResult) (y : Option YieldResult),
      danger_signals s none y = sofr_danger_contrib s + yield_danger_contrib y ∧
      warning_signals s none y =
        sofr_warning_contrib s + yield_warning_contrib y) ∧
    (∀ (s : Option SofrResult) (p : Option PmiResult),
      danger_signals s p none = sofr_danger_contrib s + pmi_danger_contrib p ∧
      warning_signals s p none =
        sofr_warning_contrib s + pmi_warning_contrib p) ∧
    danger_signals none none none = 0 ∧
    warning_signals none none none = 0 ∧
    overall_signal none none none = OverallSignal.normal := by
  refine ⟨fun p y => ⟨?_, ?_⟩, fun s y => ⟨?_, ?_⟩, fun s p => ⟨?_, ?_⟩,
    rfl, rfl, rfl⟩ <;>
  simp [danger_signals, warning_signals, sofr_danger_contrib,
    sofr_warning_contrib, pmi_danger_contrib, pmi_warning_contrib,
    yield_danger_contrib, yield_warning_contrib]

/-- Counterexample to claim C1 as stated: strategy 1 of the Fallback
Resolver accepts a payload whose value `150` lies outside `[0, 100]` and the
chain returns a series built from it instead of proceeding to strategy 2. -/
theorem claim_C1_counterexample :
    (100 : ℚ) < 150 ∧
    get_pmi_strategy1 [JVal.num 150, JVal.num 150] 2 =
      some ⟨[JVal.num 150, JVal.num 150], 2⟩ ∧
    get_pmi_strategy1 [JVal.num 150, JVal.num 150] 2 ≠ none ∧
    get_pmi_data_alternative (some [JVal.num 150, JVal.num 150]) none 2 =
      some ⟨[JVal.num 150, JVal.num 150], 2⟩ :=
  ⟨by decide, by decide, by decide, by decide⟩

/-- Claim C1 as amended: strategy 1 applies no range check; for a positive
number of requested dates it fails over to strategy 2 exactly when the
payload is empty or its latest entry does not parse as a float. -/
theorem claim_C1_amended_no_range_check (data : List JVal) (n : ℕ)
    (hn : 1 ≤ n) :
    get_pmi_strategy1 data n = none ↔
      data = [] ∨ pyFloat (data.getLastD JVal.other) = none := by
  unfold get_pmi_strategy1
  by_cases hd : data.length > 0
  · rw [if_pos hd]
    cases hf : pyFloat (data.getLastD JVal.other) with
    | none =>
      simp [hf]
    | some q =>
      have hne : data ≠ [] := by
        intro hnil
        simp [hnil] at hd
      show mkSeries (if (pySliceLastN n data).length < n then
          (pyTile (base_values.map JVal.num) (n / base_values.length + 1)).take n
        else pySliceLastN n data) n = none ↔ data = [] ∨ some q = none
      by_cases hlt : (pySliceLastN n data).length < n
      · rw [if_pos hlt]
        have hfill : ((pyTile (base_values.map JVal.num)
            (n / base_values.length + 1)).take n).length = n := by
          rw [List.length_take, length_pyTile]
          have h6 : (base_values.map JVal.num).length = 6 := rfl
          have h6b : base_values.length = 6 := rfl
          rw [h6, h6b]
          omega
        unfold mkSeries
        rw [if_pos hfill]
        simp [hne]
      · rw [if_neg hlt]
        have hslice : (pySliceLastN n data).length = n := by
          rw [length_pySliceLastN n data hn] at hlt ⊢
          omega
        unfold mkSeries
        rw [if_pos hslice]
        simp [hne]
  · rw [if_neg hd]
    have : data = [] := by
      cases data with
      | nil => rfl
      | cons a l => simp at hd
    simp [this]

/-- Witness for the amended claim C1 at a one-point numeric payload and
twelve requested dates. -/
theorem claim_C1_amended_no_range_check_witness :
    1 ≤ 12 ∧
    (get_pmi_strategy1 [JVal.num 50] 12 = none ↔
      ([JVal.num 50] : List JVal) = [] ∨
        pyFloat (([JVal.num 50] : List JVal).getLastD JVal.other) = none) :=
  ⟨by decide, claim_C1_amended_no_range_check [JVal.num 50] 12 (by decide)⟩

/-- Claim C8: when strategies 1 and 2 both fail or are rejected, the chain
returns the static backup strategy's series, which always exists and has
exactly the `n` requested month-end dates (monthly cadence, spanning the
requested range up to "now") with exactly `n` values. -/
theorem claim_C8_chain_never_fails (api : Option (List JVal))
    (found : Option ℚ) (n : ℕ) (hn : 1 ≤ n)
    (h1 : api.bind (fun data => get_pmi_strategy1 data n) = none)
    (h2 : get_pmi_strategy2 found n = none) :
    get_pmi_data_alternative api found n = get_pmi_strategy3 n ∧
    (get_pmi_strategy3 n).isSome = true ∧
    Option.map Series.nDates (get_pmi_strategy3 n) = some n ∧
    Option.map (fun s => s.values.length) (get_pmi_strategy3 n) = some n := by
  have hlen : (if n > realistic_pmi_data.length then
      (pyTile realistic_pmi_data (n / realistic_pmi_data.length + 1)).take n
    else pySliceLastN n realistic_pmi_data).length = n :=
    length_tile_or_slice realistic_pmi_data n hn (by simp [realistic_pmi_data])
  have h3 : get_pmi_strategy3 n = some ⟨(if n > realistic_pmi_data.length then
      (pyTile realistic_pmi_data (n / realistic_pmi_data.length + 1)).take n
    else pySliceLastN n realistic_pmi_data).map JVal.num, n⟩ := by
    unfold get_pmi_strategy3 mkSeries
    rw [if_pos (by simp [hlen])]
  refine ⟨?_, ?_, ?_, ?_⟩
  · unfold get_pmi_data_alternative
    rw [h1, h2]
  · rw [h3]
    rfl
  · rw [h3]
    rfl
  · rw [h3]
    simp [hlen]

/-- Witness for C8 with both network strategies failing and 24 requested
month-end dates. -/
theorem claim_C8_chain_never_fails_witness :
    1 ≤ 24 ∧
    Option.bind (none : Option (List JVal))
      (fun data => get_pmi_strategy1 data 24) = none ∧
    get_pmi_strategy2 none 24 = none ∧
    Option.map Series.nDates (get_pmi_strategy3 24) = some 24 :=
  ⟨by decide, rfl, rfl,
    (claim_C8_chain_never_fails none none 24 (by decide) rfl rfl).2.2.1⟩

/-- Claim C9: whenever the scrape strategy succeeds (a nonzero current
reading was extracted), the series it returns exists, carries the requested
number of dates, and its final value is exactly the freshly observed current
reading — the overwrite covers both the tiled-extension (`n > 12`) and the
truncation (`n ≤ 12`) case, both instances of this statement. -/
theorem claim_C9_scrape_overwrites_last (cv : ℚ) (n : ℕ) (hcv : cv ≠ 0)
    (hn : 1 ≤ n) :
    get_pmi_strategy2 (some cv) n =
      some ⟨(get_pmi_strategy2_values cv n).map JVal.num, n⟩ ∧
    (get_pmi_strategy2_values cv n).getLast? = some cv ∧
    ((get_pmi_strategy2_values cv n).map JVal.num).getLast? =
      some (JVal.num cv) := by
  have hlen : (get_pmi_strategy2_values cv n).length = n :=
    length_get_pmi_strategy2_values cv n hn
  have hlast : (get_pmi_strategy2_values cv n).getLast? = some cv := by
    simp only [get_pmi_strategy2_values]
    apply getLast?_pySetLast
    apply List.ne_nil_of_length_pos
    rw [length_tile_or_slice (pmi_trend cv) n hn (by simp [pmi_trend])]
    omega
  refine ⟨?_, hlast, ?_⟩
  · simp only [get_pmi_strategy2, if_pos hcv]
    unfold mkSeries
    rw [if_pos (by simp [hlen])]
  · rw [List.getLast?_map, hlast]
    rfl

/-- Witness for C9, exercising both the truncation case (5 dates) and the
tiled-extension case (30 dates) with current reading 47. -/
theorem claim_C9_scrape_overwrites_last_witness :
    ((47 : ℚ) ≠ 0 ∧ 1 ≤ 5 ∧
      (get_pmi_strategy2_values 47 5).getLast? = some 47) ∧
    (1 ≤ 30 ∧ (get_pmi_strategy2_values 47 30).getLast? = some 47) :=
  ⟨⟨by decide, by decide,
    (claim_C9_scrape_overwrites_last 47 5 (by decide) (by decide)).2.1⟩,
   ⟨by decide,
    (claim_C9_scrape_overwrites_last 47 30 (by decide) (by decide)).2.1⟩⟩

end CrisisAlert
